import Mathlib

/-!
Verification of the tier/limit/cleanup policy of a job-application CRM.

The embedded code consists of:
* the PostgreSQL function `public.delete_excess_records_for_user`
  (the Excess Record Reclaimer), which counts a user's rows in an entity
  table and, when the count exceeds the limit, deletes every row whose
  `ROW_NUMBER() OVER (ORDER BY created_at ASC)` exceeds the limit;
* the PostgreSQL function `public.daily_user_data_cleanup`
  (the Daily Cleanup Job), which selects premium subscriptions whose
  grace period (`plan_expiry_date + 7 days`) is strictly before the
  current date and, per user, deletes dependent follow-ups and
  job-opening-contact links of excess job openings, reclaims job
  openings (limit 30), contacts (25), companies (25), and finally
  deletes the subscription row;
* the TypeScript hook `useCurrentSubscription` / `fetchSubscriptionDetails`
  (the Subscription State Resolver), which derives the effective tier,
  grace-period flag and days left from a raw subscription row and today's
  date.

Tables are embedded as Lean lists of rows; dates and timestamps are
integers at day granularity (`startOfDay` in the source); SQL `DELETE`
becomes `List.filter` with the negated `WHERE` clause.
-/

/-- A row of `public.user_subscriptions`: owner, tier text, status text,
nullable plan expiry date (day number). -/
structure SubRow where
  user_id : Nat
  tier : String
  status : String
  plan_expiry_date : Option Int
deriving DecidableEq, Repr

/-- A row of a quota-bound entity table (`companies`, `contacts`,
`job_openings`): primary key, owner, creation timestamp (day number). -/
structure EntityRow where
  id : Nat
  user_id : Nat
  created_at : Int
deriving DecidableEq, Repr

/-- A row of a dependent table (`follow_ups`, `job_opening_contacts`):
primary key, owner, foreign key to `job_openings`. -/
structure DepRow where
  id : Nat
  user_id : Nat
  job_opening_id : Nat
deriving DecidableEq, Repr

/-- The whole relational store the cleanup job touches. -/
structure DB where
  user_subscriptions : List SubRow
  companies : List EntityRow
  contacts : List EntityRow
  job_openings : List EntityRow
  follow_ups : List DepRow
  job_opening_contacts : List DepRow
deriving DecidableEq, Repr

/-- `SELECT * FROM t WHERE user_id = u` on an entity table. -/
def userRows (t : List EntityRow) (u : Nat) : List EntityRow :=
  t.filter (fun r => r.user_id == u)

/-- Ordering used by `ORDER BY created_at ASC`. -/
def createdLe (a b : EntityRow) : Prop :=
  a.created_at ≤ b.created_at

instance : DecidableRel createdLe := fun a b => Int.decLe a.created_at b.created_at

/-- `ROW_NUMBER() OVER (ORDER BY created_at ASC)` assigns ranks along some
enumeration of the rows that is sorted by `created_at`; we embed one
execution of it as a stable insertion sort of the stored row list. -/
def sortByCreated (rs : List EntityRow) : List EntityRow :=
  rs.insertionSort createdLe

/-- Ids of the rows of user `u` in table `t` whose rank by ascending
`created_at` exceeds `limit` — the `SELECT id FROM ranked_items WHERE
rn > limit` subquery shared by the Reclaimer and the Daily Cleanup Job. -/
def excessIds (t : List EntityRow) (u : Nat) (limit : Nat) : List Nat :=
  ((sortByCreated (userRows t u)).drop limit).map (fun r => r.id)

/-- The `RAISE NOTICE` emitted by `delete_excess_records_for_user`:
either `Deleted <n> records ... Kept <limit> records` or
`No excess records to delete ... Count: <n>, Limit: <limit>`.
The plpgsql function itself `RETURNS VOID`. -/
inductive ReclaimNotice where
  | deleted (count : Nat)
  | noExcess (count : Nat) (limit : Nat)
deriving DecidableEq, Repr

/-- `public.delete_excess_records_for_user(p_user_id, p_entity_table_name,
p_limit)`: counts the user's rows; if the count exceeds the limit, deletes
every row with `id IN (SELECT id FROM ranked_items WHERE rn > limit) AND
user_id = u`. Returns the updated table together with the notice raised
(the SQL function returns VOID; the notice is its only report). -/
def delete_excess_records_for_user (t : List EntityRow) (u : Nat)
    (limit : Nat) : List EntityRow × ReclaimNotice :=
  let row_count := (userRows t u).length
  if limit < row_count then
    (t.filter (fun r => !((excessIds t u limit).contains r.id && r.user_id == u)),
     ReclaimNotice.deleted (row_count - limit))
  else
    (t, ReclaimNotice.noExcess row_count limit)

/-- Free-tier limits declared at the top of `daily_user_data_cleanup`. -/
def free_tier_company_limit : Nat := 25

def free_tier_contact_limit : Nat := 25

def free_tier_job_opening_limit : Nat := 30

def grace_period_days : Int := 7

/-- The `WHERE` clause of the Daily Cleanup Job's user selection:
`tier = 'premium' AND plan_expiry_date IS NOT NULL AND
(plan_expiry_date + grace_period_days) < current_date`. -/
def eligibleForCleanup (s : SubRow) (today : Int) : Bool :=
  s.tier == "premium" &&
    (match s.plan_expiry_date with
     | some d => decide (d + grace_period_days < today)
     | none => false)

/-- The user ids produced by the job's `FOR usr IN SELECT ...` loop. -/
def selectedUsers (db : DB) (today : Int) : List Nat :=
  (db.user_subscriptions.filter (fun s => eligibleForCleanup s today)).map
    (fun s => s.user_id)

/-- The loop body of `daily_user_data_cleanup` for one selected user:
delete the user's follow-ups of excess job openings, then the user's
job-opening-contact links of excess job openings (each pass recomputing
the `excess_job_openings_to_delete` CTE), then reclaim job openings,
contacts and companies, then delete the user's subscription rows. -/
def cleanupUser (db : DB) (u : Nat) : DB :=
  let ex1 := excessIds db.job_openings u free_tier_job_opening_limit
  let db1 := { db with
    follow_ups := db.follow_ups.filter
      (fun f => !(ex1.contains f.job_opening_id && f.user_id == u)) }
  let ex2 := excessIds db1.job_openings u free_tier_job_opening_limit
  let db2 := { db1 with
    job_opening_contacts := db1.job_opening_contacts.filter
      (fun c => !(ex2.contains c.job_opening_id && c.user_id == u)) }
  let db3 := { db2 with
    job_openings :=
      (delete_excess_records_for_user db2.job_openings u
        free_tier_job_opening_limit).1 }
  let db4 := { db3 with
    contacts :=
      (delete_excess_records_for_user db3.contacts u
        free_tier_contact_limit).1 }
  let db5 := { db4 with
    companies :=
      (delete_excess_records_for_user db4.companies u
        free_tier_company_limit).1 }
  { db5 with
    user_subscriptions := db5.user_subscriptions.filter
      (fun s => !(s.user_id == u)) }

/-- `public.daily_user_data_cleanup()`: iterate the selected users (the
cursor is opened on the initial state) and run the per-user cleanup. -/
def daily_user_data_cleanup (db : DB) (today : Int) : DB :=
  (selectedUsers db today).foldl cleanupUser db

/-- All rows of one user across the six tables; used to state frame and
idempotence properties. -/
structure UserData where
  subs : List SubRow
  companies : List EntityRow
  contacts : List EntityRow
  job_openings : List EntityRow
  follow_ups : List DepRow
  job_opening_contacts : List DepRow
deriving DecidableEq, Repr

/-- Restrict a database state to the rows owned by user `u`. -/
def userData (db : DB) (u : Nat) : UserData where
  subs := db.user_subscriptions.filter (fun s => s.user_id == u)
  companies := userRows db.companies u
  contacts := userRows db.contacts u
  job_openings := userRows db.job_openings u
  follow_ups := db.follow_ups.filter (fun f => f.user_id == u)
  job_opening_contacts := db.job_opening_contacts.filter (fun c => c.user_id == u)

/-- Output shape of the Subscription State Resolver. -/
structure ResolverOutput where
  effectiveTierForLimits : String
  isInGracePeriod : Bool
  daysLeftInGracePeriod : Option Int
deriving DecidableEq, Repr

/-- `GRACE_PERIOD_DAYS` from the hook. -/
def GRACE_PERIOD_DAYS : Int := 7

/-- The resolution logic of `fetchSubscriptionDetails` (the body of the
`try` block after the fetch): from the optional subscription row and
today's date (day granularity, `startOfDay(new Date())`), derive
`effectiveTierForLimits`, `isInGracePeriod` and `daysLeftInGracePeriod`.
`isFuture (startOfDay d)` at day granularity is `today < d`;
`differenceInDays` of two start-of-day dates is their difference. -/
def resolveSubscriptionState (data : Option SubRow) (today : Int) :
    ResolverOutput :=
  match data with
  | none => ⟨"free", false, none⟩
  | some sub =>
    if sub.tier = "premium" ∧ sub.status = "active" then
      match sub.plan_expiry_date with
      | some d =>
        if today < d then
          ⟨"premium", false, none⟩
        else
          let gracePeriodEndDate := d + GRACE_PERIOD_DAYS
          if today < gracePeriodEndDate ∨ gracePeriodEndDate - today = 0 then
            ⟨"free", true, some (max 0 (gracePeriodEndDate - today))⟩
          else
            ⟨"free", false, none⟩
      | none => ⟨"free", false, none⟩
    else
      ⟨"free", false, none⟩

/-- A fetch error as surfaced by the supabase client (`error.code`). -/
structure FetchError where
  code : String
deriving DecidableEq, Repr

/-- `fetchSubscriptionDetails`: if the fetch reported an error other than
`PGRST116` the code throws and the `catch` block resets the state to
free / no grace / no days left; otherwise the fetched row (or its
absence) is resolved. The caller always receives a `ResolverOutput`. -/
def fetchSubscriptionDetails (data : Option SubRow)
    (error : Option FetchError) (today : Int) : ResolverOutput :=
  match error with
  | some e =>
    if e.code ≠ "PGRST116" then ⟨"free", false, none⟩
    else resolveSubscriptionState data today
  | none => resolveSubscriptionState data today

/-- One possible enumeration of the stored rows by the SQL engine when it
evaluates `ROW_NUMBER() OVER (ORDER BY created_at ASC)`: any permutation
of the stored rows that is sorted by `created_at`. PostgreSQL guarantees
nothing about the relative order of rows with equal `created_at`. -/
def sqlRowOrder (rs es : List EntityRow) : Prop :=
  es.Perm rs ∧ es.Sorted createdLe

instance (rs es : List EntityRow) : Decidable (sqlRowOrder rs es) := by
  unfold sqlRowOrder; infer_instance

/-- The ids deleted by the Reclaimer when the engine enumerates the user's
rows as `es`: nothing when the count is within the limit, otherwise the
ids ranked past the limit in that enumeration. -/
def deletedIdsUnder (rs es : List EntityRow) (limit : Nat) : List Nat :=
  if limit < rs.length then (es.drop limit).map (fun r => r.id) else []

/-- The excess ids of a row list: ids ranked past the limit by ascending
creation time. `excessIds` is this applied to the user's rows. -/
def excessOf (rs : List EntityRow) (limit : Nat) : List Nat :=
  ((sortByCreated rs).drop limit).map (fun r => r.id)

/-- The action of the Reclaimer on the user's own row list. -/
def reclaimR (rs : List EntityRow) (limit : Nat) : List EntityRow :=
  if limit < rs.length then
    rs.filter (fun r => !((excessOf rs limit).contains r.id))
  else rs

/-- The action of one loop iteration of the Daily Cleanup Job on the rows
of the user being processed, expressed on those rows alone. -/
def cleanupUserLocal (d : UserData) : UserData where
  subs := []
  companies := reclaimR d.companies free_tier_company_limit
  contacts := reclaimR d.contacts free_tier_contact_limit
  job_openings := reclaimR d.job_openings free_tier_job_opening_limit
  follow_ups := d.follow_ups.filter
    (fun f => !((excessOf d.job_openings
        free_tier_job_opening_limit).contains f.job_opening_id))
  job_opening_contacts := d.job_opening_contacts.filter
    (fun c => !((excessOf d.job_openings
        free_tier_job_opening_limit).contains c.job_opening_id))

/-! ## Concrete states used to instantiate the theorems -/

/-- A five-row entity table: four rows of user 1, one of user 2. -/
def tblW : List EntityRow :=
  [⟨1, 1, 5⟩, ⟨2, 1, 3⟩, ⟨3, 1, 7⟩, ⟨4, 2, 1⟩, ⟨5, 1, 4⟩]

/-- 35 job openings of user 1, ids 0..34, created in id order. -/
def openings35 : List EntityRow :=
  (List.range 35).map (fun i => ⟨i, 1, (i : Int)⟩)

/-- One follow-up per opening of `openings35`. -/
def fus35 : List DepRow :=
  (List.range 35).map (fun i => ⟨100 + i, 1, i⟩)

/-- User 1 is premium with expiry day 0 and owns 35 openings, each with
one follow-up. -/
def db35 : DB where
  user_subscriptions := [⟨1, "premium", "active", some 0⟩]
  companies := []
  contacts := []
  job_openings := openings35
  follow_ups := fus35
  job_opening_contacts := []

/-- A small state with one eligible premium user owning two companies. -/
def dbIdem : DB where
  user_subscriptions := [⟨1, "premium", "active", some 0⟩]
  companies := [⟨1, 1, 0⟩, ⟨2, 1, 1⟩]
  contacts := []
  job_openings := []
  follow_ups := []
  job_opening_contacts := []

/-- User 1 is eligible for cleanup, user 2 is premium but still within
its plan period; both own one company. -/
def dbFrame : DB where
  user_subscriptions :=
    [⟨1, "premium", "active", some 0⟩, ⟨2, "premium", "active", some 20⟩]
  companies := [⟨1, 1, 0⟩, ⟨2, 2, 0⟩]
  contacts := []
  job_openings := []
  follow_ups := []
  job_opening_contacts := []

/-- User 3 is premium and active with a null expiry date. -/
def dbNull : DB where
  user_subscriptions := [⟨3, "premium", "active", none⟩]
  companies := [⟨9, 3, 0⟩]
  contacts := []
  job_openings := []
  follow_ups := []
  job_opening_contacts := []

/-- Two rows of the same user with equal creation timestamps. -/
def tieRowA : EntityRow := ⟨1, 1, 5⟩

/-- Second row sharing `tieRowA`'s creation timestamp. -/
def tieRowB : EntityRow := ⟨2, 1, 5⟩

/-- A one-row table of user 1, used to exercise the no-excess branch. -/
def tblOne : List EntityRow := [⟨1, 1, 0⟩]

/-! ## Helper lemmas about the Reclaimer -/

/-- Restricting a filtered table to one user is filtering the user's rows. -/
theorem userRows_filter (t : List EntityRow) (p : EntityRow → Bool) (u : Nat) :
    userRows (t.filter p) u = (userRows t u).filter p := by
  unfold userRows
  rw [List.filter_filter, List.filter_filter]
  exact List.filter_congr fun r _ => Bool.and_comm _ _

/-- Rows selected by `userRows` belong to the user. -/
theorem mem_userRows {t : List EntityRow} {u : Nat} {r : EntityRow}
    (h : r ∈ userRows t u) : r.user_id = u := by
  have h2 := (List.mem_filter.mp h).2
  simpa using h2

theorem excessIds_eq (t : List EntityRow) (u : Nat) (limit : Nat) :
    excessIds t u limit = excessOf (userRows t u) limit := rfl

/-- The Reclaimer's effect on the targeted user's rows is `reclaimR`. -/
theorem reclaim_userRows_self (t : List EntityRow) (u : Nat) (limit : Nat) :
    userRows (delete_excess_records_for_user t u limit).1 u
      = reclaimR (userRows t u) limit := by
  unfold delete_excess_records_for_user reclaimR
  by_cases h : limit < (userRows t u).length
  · rw [if_pos h, if_pos h]
    rw [userRows_filter]
    refine List.filter_congr fun r hr => ?_
    have hu := mem_userRows hr
    simp [hu, excessIds_eq]
  · rw [if_neg h, if_neg h]

/-- The Reclaimer leaves every other user's rows unchanged. -/
theorem reclaim_userRows_other (t : List EntityRow) (u : Nat) (limit : Nat)
    (v : Nat) (hvu : v ≠ u) :
    userRows (delete_excess_records_for_user t u limit).1 v = userRows t v := by
  unfold delete_excess_records_for_user
  by_cases h : limit < (userRows t u).length
  · rw [if_pos h, userRows_filter]
    refine List.filter_eq_self.mpr fun r hr => ?_
    have hv := mem_userRows hr
    have : r.user_id ≠ u := by rw [hv]; exact hvu
    simp [beq_false_of_ne this]
  · rw [if_neg h]

/-- What `reclaimR` keeps is a permutation of the `limit` oldest rows. -/
theorem reclaimR_perm (rs : List EntityRow) (limit : Nat)
    (h : (rs.map (fun r => r.id)).Nodup) :
    (reclaimR rs limit).Perm ((sortByCreated rs).take limit) := by
  have hperm : (sortByCreated rs).Perm rs := List.perm_insertionSort _ _
  by_cases hL : limit < rs.length
  · rw [reclaimR, if_pos hL]
    have hnd : ((sortByCreated rs).map (fun r => r.id)).Nodup :=
      ((hperm.map (fun r => r.id)).symm).nodup h
    have hsplit :
        (sortByCreated rs).take limit ++ (sortByCreated rs).drop limit
          = sortByCreated rs := List.take_append_drop _ _
    have hdisj :
        (((sortByCreated rs).take limit).map (fun r => r.id)).Disjoint
          (((sortByCreated rs).drop limit).map (fun r => r.id)) := by
      have := hnd
      rw [← hsplit, List.map_append, List.nodup_append] at this
      exact this.2.2
    have hfilter :
        ((sortByCreated rs).filter
            (fun r => !((excessOf rs limit).contains r.id)))
          = (sortByCreated rs).take limit := by
      rw [← hsplit, List.filter_append]
      have h1 :
          (((sortByCreated rs).take limit).filter
              (fun r => !((excessOf rs limit).contains r.id)))
            = (sortByCreated rs).take limit := by
        refine List.filter_eq_self.mpr fun r hr => ?_
        have hid : r.id ∉ ((sortByCreated rs).drop limit).map
            (fun r => r.id) :=
          hdisj (List.mem_map_of_mem _ hr)
        have hid2 : r.id ∉ List.drop limit
            (List.map (fun r => r.id) (sortByCreated rs)) := by
          simpa using hid
        simp [excessOf, List.elem_iff, hid2]
      have h2 :
          (((sortByCreated rs).drop limit).filter
              (fun r => !((excessOf rs limit).contains r.id))) = [] := by
        refine List.filter_eq_nil_iff.mpr fun r hr => ?_
        have hid : r.id ∈ ((sortByCreated rs).drop limit).map
            (fun r => r.id) := List.mem_map_of_mem _ hr
        have hid2 : r.id ∈ List.drop limit
            (List.map (fun r => r.id) (sortByCreated rs)) := by
          simpa using hid
        simp [excessOf, List.elem_iff, hid2]
      rw [h1, h2, List.append_nil, hsplit]
    calc (rs.filter (fun r => !((excessOf rs limit).contains r.id))).Perm
          ((sortByCreated rs).filter
            (fun r => !((excessOf rs limit).contains r.id))) :=
          (hperm.filter _).symm
      _ = (sortByCreated rs).take limit := hfilter
  · rw [reclaimR, if_neg hL]
    have hlen : (sortByCreated rs).length = rs.length := hperm.length_eq
    have htake : (sortByCreated rs).take limit = sortByCreated rs :=
      List.take_of_length_le (by omega)
    rw [htake]
    exact hperm.symm

/-- Size of the retained set. -/
theorem reclaimR_length (rs : List EntityRow) (limit : Nat)
    (h : (rs.map (fun r => r.id)).Nodup) :
    (reclaimR rs limit).length = min limit rs.length := by
  have hlen : (sortByCreated rs).length = rs.length :=
    (List.perm_insertionSort createdLe rs).length_eq
  rw [(reclaimR_perm rs limit h).length_eq, List.length_take, hlen]

/-- With the count within the limit the Reclaimer is the identity. -/
theorem reclaim_noop (t : List EntityRow) (u : Nat) (limit : Nat)
    (h : (userRows t u).length ≤ limit) :
    delete_excess_records_for_user t u limit
      = (t, ReclaimNotice.noExcess (userRows t u).length limit) := by
  unfold delete_excess_records_for_user
  rw [if_neg (by omega)]

/-! ## Helper lemmas about the Daily Cleanup Job -/

theorem cleanupUser_follow_ups (db : DB) (u : Nat) :
    (cleanupUser db u).follow_ups
      = db.follow_ups.filter
          (fun f => !((excessIds db.job_openings u
              free_tier_job_opening_limit).contains f.job_opening_id
            && f.user_id == u)) := rfl

theorem cleanupUser_links (db : DB) (u : Nat) :
    (cleanupUser db u).job_opening_contacts
      = db.job_opening_contacts.filter
          (fun c => !((excessIds db.job_openings u
              free_tier_job_opening_limit).contains c.job_opening_id
            && c.user_id == u)) := rfl

theorem cleanupUser_job_openings (db : DB) (u : Nat) :
    (cleanupUser db u).job_openings
      = (delete_excess_records_for_user db.job_openings u
          free_tier_job_opening_limit).1 := rfl

theorem cleanupUser_contacts (db : DB) (u : Nat) :
    (cleanupUser db u).contacts
      = (delete_excess_records_for_user db.contacts u
          free_tier_contact_limit).1 := rfl

theorem cleanupUser_companies (db : DB) (u : Nat) :
    (cleanupUser db u).companies
      = (delete_excess_records_for_user db.companies u
          free_tier_company_limit).1 := rfl

theorem cleanupUser_subscriptions (db : DB) (u : Nat) :
    (cleanupUser db u).user_subscriptions
      = db.user_subscriptions.filter (fun s => !(s.user_id == u)) := rfl

/-- Two filters of one list commute. -/
theorem filter_comm_user {α : Type} (l : List α) (p q : α → Bool) :
    (l.filter p).filter q = (l.filter q).filter p := by
  rw [List.filter_filter, List.filter_filter]
  exact List.filter_congr fun r _ => Bool.and_comm _ _

/-- The per-user cleanup leaves every other user's rows unchanged. -/
theorem cleanupUser_userData_other (db : DB) (u v : Nat) (hvu : v ≠ u) :
    userData (cleanupUser db u) v = userData db v := by
  unfold userData
  simp only [cleanupUser_follow_ups, cleanupUser_links,
    cleanupUser_job_openings, cleanupUser_contacts, cleanupUser_companies,
    cleanupUser_subscriptions, UserData.mk.injEq]
  refine ⟨?_, ?_, ?_, ?_, ?_, ?_⟩
  · rw [filter_comm_user]
    refine List.filter_eq_self.mpr fun s hs => ?_
    have hsv : s.user_id = v := by simpa using (List.mem_filter.mp hs).2
    simp [hsv, beq_false_of_ne hvu]
  · exact reclaim_userRows_other _ _ _ v hvu
  · exact reclaim_userRows_other _ _ _ v hvu
  · exact reclaim_userRows_other _ _ _ v hvu
  · rw [filter_comm_user]
    refine List.filter_eq_self.mpr fun f hf => ?_
    have hfv : f.user_id = v := by simpa using (List.mem_filter.mp hf).2
    simp [hfv, beq_false_of_ne hvu]
  · rw [filter_comm_user]
    refine List.filter_eq_self.mpr fun c hc => ?_
    have hcv : c.user_id = v := by simpa using (List.mem_filter.mp hc).2
    simp [hcv, beq_false_of_ne hvu]

/-- One loop iteration acts on the processed user's rows as
`cleanupUserLocal`. -/
theorem cleanupUser_userData_self (db : DB) (u : Nat) :
    userData (cleanupUser db u) u = cleanupUserLocal (userData db u) := by
  unfold userData cleanupUserLocal
  simp only [cleanupUser_follow_ups, cleanupUser_links,
    cleanupUser_job_openings, cleanupUser_contacts, cleanupUser_companies,
    cleanupUser_subscriptions, UserData.mk.injEq]
  refine ⟨?_, ?_, ?_, ?_, ?_, ?_⟩
  · rw [List.filter_filter]
    refine List.filter_eq_nil_iff.mpr fun s _ => ?_
    cases h : s.user_id == u <;> simp [h]
  · exact reclaim_userRows_self _ _ _
  · exact reclaim_userRows_self _ _ _
  · exact reclaim_userRows_self _ _ _
  · rw [filter_comm_user]
    refine List.filter_congr fun f hf => ?_
    have hfu : f.user_id = u := by simpa using (List.mem_filter.mp hf).2
    simp [hfu, excessIds_eq]
  · rw [filter_comm_user]
    refine List.filter_congr fun c hc => ?_
    have hcu : c.user_id = u := by simpa using (List.mem_filter.mp hc).2
    simp [hcu, excessIds_eq]

/-- Folding the per-user cleanup over a list of users leaves any user not
in the list untouched. -/
theorem foldl_cleanup_other (sel : List Nat) :
    ∀ (db : DB) (v : Nat), v ∉ sel →
      userData (sel.foldl cleanupUser db) v = userData db v := by
  induction sel with
  | nil => intro db v _; rfl
  | cons a tl ih =>
    intro db v hv
    have hva : v ≠ a := fun h => hv (h ▸ List.mem_cons_self a tl)
    have hvtl : v ∉ tl := fun h => hv (List.mem_cons_of_mem a h)
    rw [List.foldl_cons, ih _ v hvtl, cleanupUser_userData_other db a v hva]

/-- Folding the per-user cleanup over a duplicate-free list of users acts
on each listed user's rows exactly once, as `cleanupUserLocal`. -/
theorem foldl_cleanup_mem (sel : List Nat) :
    ∀ (db : DB) (u : Nat), sel.Nodup → u ∈ sel →
      userData (sel.foldl cleanupUser db) u
        = cleanupUserLocal (userData db u) := by
  induction sel with
  | nil => intro db u _ hu; cases hu
  | cons a tl ih =>
    intro db u hnd hu
    rcases List.nodup_cons.mp hnd with ⟨ha, htl⟩
    rw [List.foldl_cons]
    by_cases hau : u = a
    · subst hau
      rw [foldl_cleanup_other tl _ u ha, cleanupUser_userData_self]
    · have hutl : u ∈ tl := by
        rcases List.mem_cons.mp hu with h | h
        · exact absurd h hau
        · exact h
      rw [ih (cleanupUser db a) u htl hutl,
        cleanupUser_userData_other db a u hau]

/-- Every selected user id comes from a subscription row that satisfies
the job's `WHERE` clause. -/
theorem selectedUsers_sub_exists {db : DB} {today : Int} {u : Nat}
    (h : u ∈ selectedUsers db today) :
    ∃ s ∈ db.user_subscriptions,
      s.user_id = u ∧ eligibleForCleanup s today = true := by
  unfold selectedUsers at h
  rcases List.mem_map.mp h with ⟨s, hs, hsu⟩
  rcases List.mem_filter.mp hs with ⟨hmem, helig⟩
  exact ⟨s, hmem, hsu, helig⟩

/-- With user ids unique in `user_subscriptions` (one row per user), the
selected list is duplicate-free. -/
theorem selectedUsers_nodup {db : DB} {today : Int}
    (h : (db.user_subscriptions.map (fun s => s.user_id)).Nodup) :
    (selectedUsers db today).Nodup := by
  unfold selectedUsers
  exact List.Nodup.sublist
    ((List.filter_sublist db.user_subscriptions).map (fun s => s.user_id)) h

/-- A user with no subscription row is never selected. -/
theorem not_selected_of_no_subs {db : DB} {today : Int} {u : Nat}
    (h : db.user_subscriptions.filter (fun s => s.user_id == u) = []) :
    u ∉ selectedUsers db today := by
  intro hu
  rcases selectedUsers_sub_exists hu with ⟨s, hmem, hsu, _⟩
  have hin : s ∈ db.user_subscriptions.filter (fun s => s.user_id == u) :=
    List.mem_filter.mpr ⟨hmem, by simp [hsu]⟩
  rw [h] at hin
  cases hin

/-- The Daily Cleanup Job leaves any unselected user's rows unchanged. -/
theorem daily_userData_other (db : DB) (today : Int) (v : Nat)
    (hv : v ∉ selectedUsers db today) :
    userData (daily_user_data_cleanup db today) v = userData db v :=
  foldl_cleanup_other _ db v hv

/-- The Daily Cleanup Job acts on each selected user's rows as
`cleanupUserLocal`. -/
theorem daily_userData_mem (db : DB) (today : Int) (u : Nat)
    (hnd : (db.user_subscriptions.map (fun s => s.user_id)).Nodup)
    (hu : u ∈ selectedUsers db today) :
    userData (daily_user_data_cleanup db today) u
      = cleanupUserLocal (userData db u) :=
  foldl_cleanup_mem _ db u (selectedUsers_nodup hnd) hu

/-! ## Claim theorems -/

/-- C1: for every user, entity table and limit L with unique primary keys
among the user's rows: one Reclaimer run leaves exactly min(L, n) of the
user's n records, namely (a permutation of) the L oldest by ascending
creation timestamp (ranks 1..L); it deletes exactly n - L of the user's
records when n > L; it touches no other user's rows; and when n ≤ L it
deletes nothing at all. -/
theorem C1_reclaimer_quota_invariant (t : List EntityRow) (u : Nat)
    (L : Nat) (h : ((userRows t u).map (fun r => r.id)).Nodup) :
    ((userRows (delete_excess_records_for_user t u L).1 u).length
        = min L (userRows t u).length)
    ∧ (userRows (delete_excess_records_for_user t u L).1 u).Perm
        ((sortByCreated (userRows t u)).take L)
    ∧ ((userRows t u).length
          - (userRows (delete_excess_records_for_user t u L).1 u).length
        = (userRows t u).length - L)
    ∧ (∀ v, v ≠ u →
        userRows (delete_excess_records_for_user t u L).1 v = userRows t v)
    ∧ ((userRows t u).length ≤ L
        → (delete_excess_records_for_user t u L).1 = t) := by
  refine ⟨?_, ?_, ?_, ?_, ?_⟩
  · rw [reclaim_userRows_self]
    exact reclaimR_length _ _ h
  · rw [reclaim_userRows_self]
    exact reclaimR_perm _ _ h
  · rw [reclaim_userRows_self, reclaimR_length _ _ h]
    omega
  · exact fun v hv => reclaim_userRows_other t u L v hv
  · intro hL
    rw [reclaim_noop t u L hL]

/-- Witness for C1: user 1 owns four of the five rows of `tblW`; with
limit 2 the run keeps min(2, 4) = 2 of them. -/
theorem C1_witness :
    (((userRows tblW 1).map (fun r => r.id)).Nodup)
    ∧ ((userRows (delete_excess_records_for_user tblW 1 2).1 1).length
        = min 2 (userRows tblW 1).length) :=
  ⟨by decide, (C1_reclaimer_quota_invariant tblW 1 2 (by decide)).1⟩

/-- C6 counterexample: the Reclaimer does not return (or report) a zero
deleted-count when the user's record count is at or below the limit: the
SQL function is VOID and its notice in that branch carries the current
count and the limit, not a deletion count of zero. Concretely, with one
record and limit 5 the run's notice is not `deleted 0`. -/
theorem C6_counterexample :
    (userRows tblOne 1).length ≤ 5
    ∧ (delete_excess_records_for_user tblOne 1 5).2
        ≠ ReclaimNotice.deleted 0 := by
  decide

/-- C6 (amended): the Reclaimer returns no value (the SQL function is
declared VOID); when the user's count is at or below the limit it
performs no deletions and raises the no-excess notice carrying the count
and the limit, and when the count exceeds the limit its notice reports
count - limit deleted, which is exactly the number of the user's rows it
removes. -/
theorem C6_reclaimer_report (t : List EntityRow) (u : Nat) (L : Nat)
    (h : ((userRows t u).map (fun r => r.id)).Nodup) :
    ((userRows t u).length ≤ L →
      delete_excess_records_for_user t u L
        = (t, ReclaimNotice.noExcess (userRows t u).length L))
    ∧ (L < (userRows t u).length →
      ((delete_excess_records_for_user t u L).2
          = ReclaimNotice.deleted ((userRows t u).length - L)
        ∧ (userRows t u).length
            - (userRows (delete_excess_records_for_user t u L).1 u).length
          = (userRows t u).length - L)) := by
  constructor
  · exact reclaim_noop t u L
  · intro hL
    constructor
    · simp only [delete_excess_records_for_user]
      rw [if_pos hL]
    · rw [reclaim_userRows_self, reclaimR_length _ _ h]
      omega

/-- Witness for C6: both branches exercised on concrete tables. -/
theorem C6_witness :
    ((userRows tblOne 1).length ≤ 5
      ∧ delete_excess_records_for_user tblOne 1 5
          = (tblOne, ReclaimNotice.noExcess (userRows tblOne 1).length 5))
    ∧ (2 < (userRows tblW 1).length
      ∧ (delete_excess_records_for_user tblW 1 2).2
          = ReclaimNotice.deleted ((userRows tblW 1).length - 2)) :=
  ⟨⟨by decide, (C6_reclaimer_report tblOne 1 5 (by decide)).1 (by decide)⟩,
   ⟨by decide, ((C6_reclaimer_report tblW 1 2 (by decide)).2 (by decide)).1⟩⟩

/-- C5: the deleted set is NOT a deterministic function of the stored
rows: `ROW_NUMBER() OVER (ORDER BY created_at ASC)` has no secondary
ordering key, so when two rows of one user share a creation timestamp the
engine may enumerate them in either order; with limit 1, one valid
sorted enumeration of the same stored rows makes the run delete id 2 and
the other makes it delete id 1. -/
theorem C5_tiebreak_nondeterministic :
    sqlRowOrder [tieRowA, tieRowB] [tieRowA, tieRowB]
    ∧ sqlRowOrder [tieRowA, tieRowB] [tieRowB, tieRowA]
    ∧ deletedIdsUnder [tieRowA, tieRowB] [tieRowA, tieRowB] 1
        ≠ deletedIdsUnder [tieRowA, tieRowB] [tieRowB, tieRowA] 1 := by
  refine ⟨by decide, by decide, by decide⟩

/-- C7: for a premium, active subscription whose expiry date is exactly
one day before today, the Resolver yields effective tier free, grace
period active, and 6 days left in the grace period. -/
theorem C7_resolver_day_after_expiry (today : Int) :
    resolveSubscriptionState
        (some ⟨1, "premium", "active", some (today - 1)⟩) today
      = ⟨"free", true, some 6⟩ := by
  have h1 : ¬today < today - 1 := by omega
  have h2 : today < today - 1 + 7 := by omega
  have h6 : today - 1 + 7 - today = 6 := by omega
  simp [resolveSubscriptionState, GRACE_PERIOD_DAYS, h1, h2, h6]

/-- Witness for C7 at today = 10. -/
theorem C7_witness :
    resolveSubscriptionState
        (some ⟨1, "premium", "active", some ((10 : Int) - 1)⟩) 10
      = ⟨"free", true, some 6⟩ :=
  C7_resolver_day_after_expiry 10

/-- C8: absence of data is a valid input, not an error: with no
subscription row the Resolver yields free / no grace / no days; any fetch
error (other than the no-rows code PGRST116, which just means no data) is
caught and yields the same free state instead of failing the caller; and
a malformed row whose tier or status is not an active premium resolves to
the same free state. -/
theorem C8_resolver_error_handling :
    (∀ today : Int,
      fetchSubscriptionDetails none none today = ⟨"free", false, none⟩)
    ∧ (∀ (data : Option SubRow) (e : FetchError) (today : Int),
        e.code ≠ "PGRST116" →
          fetchSubscriptionDetails data (some e) today
            = ⟨"free", false, none⟩)
    ∧ (∀ (sub : SubRow) (today : Int),
        ¬(sub.tier = "premium" ∧ sub.status = "active") →
          fetchSubscriptionDetails (some sub) none today
            = ⟨"free", false, none⟩) := by
  refine ⟨fun today => rfl, ?_, ?_⟩
  · intro data e today he
    simp [fetchSubscriptionDetails, he]
  · intro sub today hm
    simp only [fetchSubscriptionDetails, resolveSubscriptionState]
    rw [if_neg hm]

/-- Witness for C8: no row, a connection error, and a canceled row. -/
theorem C8_witness :
    fetchSubscriptionDetails none none 0 = ⟨"free", false, none⟩
    ∧ fetchSubscriptionDetails (some ⟨1, "premium", "active", some 100⟩)
        (some ⟨"500"⟩) 0 = ⟨"free", false, none⟩
    ∧ fetchSubscriptionDetails (some ⟨1, "premium", "canceled", some 100⟩)
        none 0 = ⟨"free", false, none⟩ :=
  ⟨C8_resolver_error_handling.1 0,
   C8_resolver_error_handling.2.1 (some ⟨1, "premium", "active", some 100⟩)
     ⟨"500"⟩ 0 (by decide),
   C8_resolver_error_handling.2.2 ⟨1, "premium", "canceled", some 100⟩ 0
     (by decide)⟩

/-- C3: the two grace boundaries differ by exactly one day. With expiry
exactly 7 days before today (grace end = today) the Resolver still
reports the grace period active with 0 days left, while such a
subscription fails the Daily Cleanup Job's `WHERE` clause; and the job
selects a row only when it is premium and its expiry + 7 is strictly
before today. -/
theorem C3_grace_boundary_asymmetry (today : Int) :
    resolveSubscriptionState
        (some ⟨1, "premium", "active", some (today - 7)⟩) today
      = ⟨"free", true, some 0⟩
    ∧ (∀ s : SubRow, s.plan_expiry_date = some (today - 7) →
        eligibleForCleanup s today = false)
    ∧ (∀ s : SubRow, eligibleForCleanup s today = true →
        s.tier = "premium"
          ∧ ∃ d, s.plan_expiry_date = some d ∧ d + 7 < today) := by
  refine ⟨?_, ?_, ?_⟩
  · have h1 : ¬today < today - 7 := by omega
    have h0 : today - 7 + 7 - today = 0 := by omega
    simp [resolveSubscriptionState, GRACE_PERIOD_DAYS, h1, h0]
  · intro s hs
    have h7 : ¬today - 7 + 7 < today := by omega
    cases htier : (s.tier == "premium") <;>
      simp [eligibleForCleanup, hs, htier, grace_period_days, h7]
  · intro s h
    unfold eligibleForCleanup at h
    rw [Bool.and_eq_true] at h
    rcases h with ⟨h1, h2⟩
    refine ⟨by simpa using h1, ?_⟩
    cases hd : s.plan_expiry_date with
    | none => rw [hd] at h2; cases h2
    | some d =>
      rw [hd] at h2
      exact ⟨d, rfl, by simpa [grace_period_days] using of_decide_eq_true h2⟩

/-- Witness for C3 at today = 10, expiry day 3 = 10 - 7. -/
theorem C3_witness :
    resolveSubscriptionState
        (some ⟨1, "premium", "active", some ((10 : Int) - 7)⟩) 10
      = ⟨"free", true, some 0⟩
    ∧ eligibleForCleanup ⟨7, "premium", "active", some 3⟩ 10 = false :=
  ⟨(C3_grace_boundary_asymmetry 10).1,
   (C3_grace_boundary_asymmetry 10).2.1 ⟨7, "premium", "active", some 3⟩
     (by decide)⟩

/-- C10: a premium, active subscription with a null expiry date resolves
to effective tier free with no grace period and no days left; and a user
all of whose subscription rows lack an expiry date is never selected by
the Daily Cleanup Job, so the job leaves that user's subscription rows
in place. -/
theorem C10_null_expiry_never_cleaned (db : DB) (today : Int) (v : Nat)
    (h : ∀ s ∈ db.user_subscriptions, s.user_id = v →
      s.plan_expiry_date = none) :
    resolveSubscriptionState (some ⟨v, "premium", "active", none⟩) today
      = ⟨"free", false, none⟩
    ∧ v ∉ selectedUsers db today
    ∧ (daily_user_data_cleanup db today).user_subscriptions.filter
        (fun s => s.user_id == v)
      = db.user_subscriptions.filter (fun s => s.user_id == v) := by
  have hv : v ∉ selectedUsers db today := by
    intro hvmem
    rcases selectedUsers_sub_exists hvmem with ⟨s, hmem, hsu, helig⟩
    have hnone := h s hmem hsu
    rw [eligibleForCleanup, hnone] at helig
    simp at helig
  refine ⟨by simp [resolveSubscriptionState], hv, ?_⟩
  exact congrArg UserData.subs (daily_userData_other db today v hv)

/-- Witness for C10 on `dbNull`. -/
theorem C10_witness :
    resolveSubscriptionState (some ⟨3, "premium", "active", none⟩) 5
      = ⟨"free", false, none⟩
    ∧ 3 ∉ selectedUsers dbNull 5
    ∧ (daily_user_data_cleanup dbNull 5).user_subscriptions.filter
        (fun s => s.user_id == 3)
      = dbNull.user_subscriptions.filter (fun s => s.user_id == 3) :=
  C10_null_expiry_never_cleaned dbNull 5 3 (by decide)

/-- C9: per-user scoping. A user not selected by the eligibility query
has every row — subscription, companies, contacts, job openings,
follow-ups and links — unchanged by a run of the Daily Cleanup Job; and
each Reclaimer invocation leaves every user other than its target
untouched. -/
theorem C9_unselected_users_untouched (db : DB) (today : Int) (v : Nat)
    (hv : v ∉ selectedUsers db today) :
    userData (daily_user_data_cleanup db today) v = userData db v
    ∧ (∀ (t : List EntityRow) (u : Nat) (L : Nat), v ≠ u →
        userRows (delete_excess_records_for_user t u L).1 v = userRows t v) :=
  ⟨daily_userData_other db today v hv,
   fun t u L hne => reclaim_userRows_other t u L v hne⟩

/-- Witness for C9: on `dbFrame` at day 10, user 2 (still in its plan
period) is not selected and keeps all rows. -/
theorem C9_witness :
    (2 ∉ selectedUsers dbFrame 10)
    ∧ userData (daily_user_data_cleanup dbFrame 10) 2 = userData dbFrame 2 :=
  ⟨by decide, (C9_unselected_users_untouched dbFrame 10 2 (by decide)).1⟩

/-- C4: idempotence. A second Reclaimer run immediately after a first,
with no intervening inserts, enters the no-excess branch and deletes
nothing; and a second Daily Cleanup Job run performs no mutation on any
user processed by the first run, because that user's subscription row
was deleted and the user is no longer selected. -/
theorem C4_cleanup_idempotent (t : List EntityRow) (u L : Nat)
    (db : DB) (today : Int) (v : Nat)
    (h : ((userRows t u).map (fun r => r.id)).Nodup)
    (hnd : (db.user_subscriptions.map (fun s => s.user_id)).Nodup)
    (hv : v ∈ selectedUsers db today) :
    delete_excess_records_for_user
        (delete_excess_records_for_user t u L).1 u L
      = ((delete_excess_records_for_user t u L).1,
          ReclaimNotice.noExcess (min L (userRows t u).length) L)
    ∧ userData
        (daily_user_data_cleanup (daily_user_data_cleanup db today) today) v
      = userData (daily_user_data_cleanup db today) v := by
  constructor
  · have hlen : (userRows (delete_excess_records_for_user t u L).1 u).length
        = min L (userRows t u).length := by
      rw [reclaim_userRows_self]
      exact reclaimR_length _ _ h
    have hle : (userRows (delete_excess_records_for_user t u L).1 u).length
        ≤ L := by
      rw [hlen]
      exact Nat.min_le_left _ _
    rw [reclaim_noop _ u L hle, hlen]
  · have h1 : userData (daily_user_data_cleanup db today) v
        = cleanupUserLocal (userData db v) :=
      daily_userData_mem db today v hnd hv
    have hsubs : (daily_user_data_cleanup db today).user_subscriptions.filter
        (fun s => s.user_id == v) = [] :=
      congrArg UserData.subs h1
    exact daily_userData_other _ today v (not_selected_of_no_subs hsubs)

/-- Witness for C4 on `tblW` and `dbIdem`. -/
theorem C4_witness :
    ((userRows tblW 1).map (fun r => r.id)).Nodup
    ∧ (1 ∈ selectedUsers dbIdem 10)
    ∧ userData
        (daily_user_data_cleanup (daily_user_data_cleanup dbIdem 10) 10) 1
      = userData (daily_user_data_cleanup dbIdem 10) 1 :=
  ⟨by decide, by decide,
   (C4_cleanup_idempotent tblW 1 2 dbIdem 10 1 (by decide) (by decide)
     (by decide)).2⟩

/-- C2: dependent rows go before their parents. For a user selected by
the Daily Cleanup Job — with unique opening ids and every follow-up of
the user attached to one of the user's openings — the run (whose
per-user body is, in order: follow-ups pass, links pass, opening
reclaim, contact reclaim, company reclaim, subscription delete, as
`cleanupUser` composes them) leaves the user with exactly the 30 oldest
openings, removes exactly the follow-ups and links of excess openings,
leaves no follow-up orphaned, and removes the subscription row. -/
theorem C2_dependents_before_parents (db : DB) (today : Int) (u : Nat)
    (hnd : (db.user_subscriptions.map (fun s => s.user_id)).Nodup)
    (hu : u ∈ selectedUsers db today)
    (hids : ((userRows db.job_openings u).map (fun r => r.id)).Nodup)
    (hdep : ∀ f ∈ db.follow_ups.filter (fun f => f.user_id == u),
      f.job_opening_id ∈ (userRows db.job_openings u).map (fun r => r.id)) :
    ((userRows (daily_user_data_cleanup db today).job_openings u).Perm
        ((sortByCreated (userRows db.job_openings u)).take
          free_tier_job_opening_limit))
    ∧ ((daily_user_data_cleanup db today).follow_ups.filter
          (fun f => f.user_id == u)
        = (db.follow_ups.filter (fun f => f.user_id == u)).filter
            (fun f => !((excessIds db.job_openings u
                free_tier_job_opening_limit).contains f.job_opening_id)))
    ∧ ((daily_user_data_cleanup db today).job_opening_contacts.filter
          (fun c => c.user_id == u)
        = (db.job_opening_contacts.filter (fun c => c.user_id == u)).filter
            (fun c => !((excessIds db.job_openings u
                free_tier_job_opening_limit).contains c.job_opening_id)))
    ∧ (∀ f ∈ (daily_user_data_cleanup db today).follow_ups.filter
          (fun f => f.user_id == u),
        f.job_opening_id ∈
          (userRows (daily_user_data_cleanup db today).job_openings u).map
            (fun r => r.id))
    ∧ ((daily_user_data_cleanup db today).user_subscriptions.filter
        (fun s => s.user_id == u) = []) := by
  have hmain : userData (daily_user_data_cleanup db today) u
      = cleanupUserLocal (userData db u) :=
    daily_userData_mem db today u hnd hu
  have hopen : userRows (daily_user_data_cleanup db today).job_openings u
      = reclaimR (userRows db.job_openings u) free_tier_job_opening_limit :=
    congrArg UserData.job_openings hmain
  have hfu : (daily_user_data_cleanup db today).follow_ups.filter
        (fun f => f.user_id == u)
      = (db.follow_ups.filter (fun f => f.user_id == u)).filter
          (fun f => !((excessOf (userRows db.job_openings u)
              free_tier_job_opening_limit).contains f.job_opening_id)) :=
    congrArg UserData.follow_ups hmain
  have hlk : (daily_user_data_cleanup db today).job_opening_contacts.filter
        (fun c => c.user_id == u)
      = (db.job_opening_contacts.filter (fun c => c.user_id == u)).filter
          (fun c => !((excessOf (userRows db.job_openings u)
              free_tier_job_opening_limit).contains c.job_opening_id)) :=
    congrArg UserData.job_opening_contacts hmain
  have hsubs : (daily_user_data_cleanup db today).user_subscriptions.filter
      (fun s => s.user_id == u) = [] :=
    congrArg UserData.subs hmain
  have hperm :
      (userRows (daily_user_data_cleanup db today).job_openings u).Perm
        ((sortByCreated (userRows db.job_openings u)).take
          free_tier_job_opening_limit) := by
    rw [hopen]
    exact reclaimR_perm _ _ hids
  refine ⟨hperm, hfu, hlk, ?_, hsubs⟩
  intro f hf
  rw [hfu] at hf
  have hmem := List.mem_filter.mp hf
  have hf0 : f ∈ db.follow_ups.filter (fun f => f.user_id == u) := hmem.1
  have hnotex : f.job_opening_id ∉
      excessOf (userRows db.job_openings u) free_tier_job_opening_limit := by
    have h2 := hmem.2
    simp only [Bool.not_eq_eq_eq_not, Bool.not_true] at h2
    simpa [List.elem_iff] using h2
  have hin : f.job_opening_id ∈ (userRows db.job_openings u).map
      (fun r => r.id) := hdep f hf0
  have hsperm : (sortByCreated (userRows db.job_openings u)).Perm
      (userRows db.job_openings u) := List.perm_insertionSort _ _
  have hin2 : f.job_opening_id ∈
      (sortByCreated (userRows db.job_openings u)).map (fun r => r.id) :=
    ((hsperm.map (fun r => r.id)).mem_iff).mpr hin
  have hsplit :
      (sortByCreated (userRows db.job_openings u)).take
          free_tier_job_opening_limit
        ++ (sortByCreated (userRows db.job_openings u)).drop
          free_tier_job_opening_limit
      = sortByCreated (userRows db.job_openings u) :=
    List.take_append_drop _ _
  rw [← hsplit, List.map_append] at hin2
  rcases List.mem_append.mp hin2 with hl | hr
  · rw [hopen]
    have hpm :
        ((reclaimR (userRows db.job_openings u)
            free_tier_job_opening_limit).map (fun r => r.id)).Perm
          (((sortByCreated (userRows db.job_openings u)).take
            free_tier_job_opening_limit).map (fun r => r.id)) :=
      (reclaimR_perm _ _ hids).map _
    exact (hpm.mem_iff).mpr hl
  · exact absurd hr hnotex

/-- Witness for C2: user 1 of `db35` has 35 openings (limit 30), each
with one follow-up; after the job exactly 30 openings and 30 follow-ups
remain and the subscription row is gone. -/
theorem C2_witness :
    (userRows (daily_user_data_cleanup db35 10).job_openings 1).length = 30
    ∧ ((daily_user_data_cleanup db35 10).follow_ups.filter
        (fun f => f.user_id == 1)).length = 30
    ∧ ((daily_user_data_cleanup db35 10).user_subscriptions.filter
        (fun s => s.user_id == 1) = []) :=
  ⟨by decide, by decide,
   (C2_dependents_before_parents db35 10 1 (by decide) (by decide)
     (by decide) (by decide)).2.2.2.2⟩
